import Mathlib

/- Shallow embedding of src/stuff.py: the structured-query-to-SQL compiler
(build_query, build_sql_query), the query executor (execute_query), and the
two tool-calling orchestrators (process_user_question, process_question).
Python dicts with possibly-absent keys are modelled as structures of Option
fields; dict.get(k, d) is Option.getD.  The language-model service and the
relational engine are external collaborators and appear as explicit
function parameters (Oracle, Engine). -/

namespace DBAgent

/-- Scalar values in conditions and result rows: the Python code distinguishes
strings (isinstance(value, str)) from numbers. -/
inductive Value where
  | str (s : String)
  | int (n : Int)

/-- Condition dict: column / operator / value keys, each possibly absent. -/
structure Condition where
  column : Option String := none
  operator : Option String := none
  value : Option Value := none

/-- The "on" sub-dict of a join. -/
structure JoinOn where
  left_column : Option String := none
  right_column : Option String := none

/-- Join dict: table, type, on (the source key "on" is a Lean keyword, hence on_). -/
structure Join where
  table : Option String := none
  type : Option String := none
  on_ : Option JoinOn := none

/-- order_by entry: column and direction. -/
structure OrderSpec where
  column : Option String := none
  direction : Option String := none

/-- The query_structure dict handed to build_query / build_sql_query. -/
structure QueryStructure where
  table : Option String := none
  columns : Option (List String) := none
  conditions : Option (List Condition) := none
  joins : Option (List Join) := none
  group_by : Option (List String) := none
  order_by : Option (List OrderSpec) := none
  limit : Option Int := none

/-- Python str.lower, as the ASCII case mapping Char.toLower provides,
written structurally over the character list (extensionally String.toLower,
whose byte-position implementation kernel reduction cannot unfold). -/
def pyLower (s : String) : String := ⟨s.data.map Char.toLower⟩

/-- Python str.startswith: prefix test on the character lists (extensionally
String.startsWith, whose byte-position loop kernel reduction cannot
unfold). -/
def pyStartsWith (s pre : String) : Bool := pre.data.isPrefixOf s.data

/-- Value formatting in the conditions loop (stuff.py lines 92-96 and 473-477):
a string value is single-quoted unless its lower-cased form starts with
"select"; otherwise Python str() is used (identity on strings, decimal on
numbers). -/
def formattedValue (v : Value) : String :=
  match v with
  | .str s => if pyStartsWith (pyLower s) "select" then s else "'" ++ s ++ "'"
  | .int n => toString n

/-- One rendered condition (lines 87-98 / 468-479): column defaults to "",
operator to "=", value to the empty string. -/
def renderCondition (c : Condition) : String :=
  (c.column.getD "") ++ " " ++ (c.operator.getD "=") ++ " "
    ++ formattedValue (c.value.getD (Value.str ""))

/-- One rendered join fragment (line 82 / 463), with the leading space of the
f-string made explicit.  type defaults to "INNER" and is upper-cased; the
join table name appears both after JOIN and as the right-column qualifier. -/
def renderJoin (table : String) (j : Join) : String :=
  " " ++ ((j.type.getD "INNER").toUpper ++ " JOIN " ++ (j.table.getD "") ++ " ON "
    ++ table ++ "." ++ ((j.on_.getD {}).left_column.getD "") ++ " = "
    ++ (j.table.getD "") ++ "." ++ ((j.on_.getD {}).right_column.getD ""))

/-- The joins for-loop (lines 76-82 / 458-463), appending one fragment per join. -/
def joinsList (table : String) : List Join → String
  | [] => ""
  | j :: js => renderJoin table j ++ joinsList table js

/-- The joins section: emitted only when the "joins" key is present (the
additional Python truthiness test changes nothing, since the loop over an
empty list appends nothing). -/
def joinsClause (table : String) : Option (List Join) → String
  | none => ""
  | some js => joinsList table js

/-- The WHERE section (lines 85-100 / 466-481): emitted only when the
"conditions" key is present and the list non-empty. -/
def whereClause : Option (List Condition) → String
  | none => ""
  | some [] => ""
  | some cs => " WHERE " ++ String.intercalate " AND " (cs.map renderCondition)

/-- The GROUP BY section (lines 103-105 / 484-485). -/
def groupByClause : Option (List String) → String
  | none => ""
  | some [] => ""
  | some gs => " GROUP BY " ++ String.intercalate ", " gs

/-- One ORDER BY entry (lines 110-113 / 490-493): direction defaults to "ASC". -/
def renderOrder (o : OrderSpec) : String :=
  (o.column.getD "") ++ " " ++ (o.direction.getD "ASC")

/-- The ORDER BY section (lines 108-115 / 488-495). -/
def orderByClause : Option (List OrderSpec) → String
  | none => ""
  | some [] => ""
  | some os => " ORDER BY " ++ String.intercalate ", " (os.map renderOrder)

/-- The LIMIT section (lines 118-119 / 498-499): Python truthiness means a
present but zero limit is omitted. -/
def limitClause : Option Int → String
  | none => ""
  | some n => if n = 0 then "" else " LIMIT " ++ toString n

/-- build_query (stuff.py lines 63-121): joins the columns (default ["*"]),
returns a diagnostic comment when the table is absent or empty, otherwise
assembles SELECT, FROM, joins, WHERE, GROUP BY, ORDER BY, LIMIT in order. -/
def build_query (q : QueryStructure) : String :=
  if q.table.getD "" = "" then "-- Error: No table specified"
  else
    "SELECT " ++ String.intercalate ", " (q.columns.getD ["*"]) ++ " FROM " ++ q.table.getD ""
      ++ joinsClause (q.table.getD "") q.joins ++ whereClause q.conditions
      ++ groupByClause q.group_by ++ orderByClause q.order_by ++ limitClause q.limit

/-- build_sql_query (stuff.py lines 450-501): identical clause assembly, but
with no check that the table is non-empty. -/
def build_sql_query (q : QueryStructure) : String :=
  "SELECT " ++ String.intercalate ", " (q.columns.getD ["*"]) ++ " FROM " ++ q.table.getD ""
    ++ joinsClause (q.table.getD "") q.joins ++ whereClause q.conditions
    ++ groupByClause q.group_by ++ orderByClause q.order_by ++ limitClause q.limit

/-- A result row: mapping from column name to scalar value, in column order. -/
abbrev ResultRow := List (String × Value)

/-- The relational engine boundary (duckdb, an external collaborator): a SQL
text either yields column names plus rows, or fails with an error message. -/
abbrev Engine := String → Except String (List String × List (List Value))

/-- DatabaseQueryAgent.execute_query (lines 52-61) and the identical
SimplifiedDBAgent.execute_query (lines 413-420): fetch rows and column names,
zip each row with the column names; on any engine failure return the single
row with the "error" key instead of raising. -/
def execute_query (engine : Engine) (query : String) : List ResultRow :=
  match engine query with
  | .ok (columns, rows) => rows.map (fun row => columns.zip row)
  | .error e => [[("error", Value.str e)]]

/-- Parsed arguments of a tool call (json.loads of the arguments blob):
"query" for execute_query, the QueryStructure keys for query_database.  An
execute_query call whose query key is absent (the schema marks it required)
is modelled as the empty SQL string; Python would pass None to the executor
and the engine adapter would report the failure as an error row either way. -/
structure ToolCallArgs where
  query : Option String := none
  table : Option String := none
  columns : Option (List String) := none
  conditions : Option (List Condition) := none
  joins : Option (List Join) := none
  group_by : Option (List String) := none
  order_by : Option (List OrderSpec) := none
  limit : Option Int := none

/-- One tool call in a model response. -/
structure ToolCall where
  id : String := ""
  name : String := ""
  arguments : ToolCallArgs := {}

/-- A model response message: optional content and a (possibly empty) list of
tool calls; Python's falsy None tool_calls is the empty list. -/
structure ModelMessage where
  content : Option String := none
  tool_calls : List ToolCall := []

/-- A conversation entry. -/
inductive Message where
  | system (content : String)
  | user (content : String)
  | assistant (response : ModelMessage)
  | tool (tool_call_id : String) (name : String) (content : String)

/-- How a chat-completion request is issued: with the two tools and
tool_choice "auto", with the tools and a forced named function, or with no
tools at all (the final call). -/
inductive CallMode where
  | toolsAuto
  | toolsForced (name : String)
  | noTools
  deriving DecidableEq, Repr

/-- The language-model service boundary (external collaborator): the message
list and the call mode determine the response. -/
abbrev Oracle := List Message → CallMode → ModelMessage

/-- json.dumps of a scalar (quote escaping inside strings is not modelled; no
theorem below inspects these serialized payloads). -/
def dumpsVal : Value → String
  | .str s => "\"" ++ s ++ "\""
  | .int n => toString n

/-- json.dumps of one result row. -/
def dumpsRow (r : ResultRow) : String :=
  "\x7b" ++ String.intercalate ", " (r.map (fun p => "\"" ++ p.1 ++ "\": " ++ dumpsVal p.2)) ++ "\x7d"

/-- json.dumps of a row list. -/
def dumpsRows (rows : List ResultRow) : String :=
  "[" ++ String.intercalate ", " (rows.map dumpsRow) ++ "]"

/-- json.dumps of the single-key object sent back by process_question (line 655). -/
def dumpsSqlObj (sql : String) : String :=
  "\x7b\"sql\": \"" ++ sql ++ "\"\x7d"

/-- json.dumps of the single-key object sent back by process_user_question (line 295). -/
def dumpsQueryObj (sql : String) : String :=
  "\x7b\"query\": \"" ++ sql ++ "\"\x7d"

/-- The query_database arguments read as a query-structure dict: exactly the
keys the model supplied (process_user_question passes function_args straight
to build_query, line 285). -/
def toQueryStructure (a : ToolCallArgs) : QueryStructure :=
  { table := a.table, columns := a.columns, conditions := a.conditions, joins := a.joins,
    group_by := a.group_by, order_by := a.order_by, limit := a.limit }

/-- The query-structure dict process_question builds (lines 637-645): every
key present, defaults filled for absent arguments.  A query_database call
without the required table key is modelled as an absent table (Python would
store None, which build_sql_query would interpolate as the text "None";
this corner is outside every claim). -/
def pqFill (a : ToolCallArgs) : QueryStructure :=
  { table := a.table, columns := some (a.columns.getD ["*"]),
    conditions := some (a.conditions.getD []), joins := some (a.joins.getD []),
    group_by := some (a.group_by.getD []), order_by := some (a.order_by.getD []),
    limit := a.limit }

/-- The result dict of process_question (lines 622-627). -/
structure PQResults where
  question : String
  sql_query : Option String := none
  query_results : Option (List ResultRow) := none
  final_answer : Option String := none

/-- State threaded through process_question, instrumented with the sequence
of model-invocation modes (trace) and of SQL texts handed to the engine
(executed), so theorems can speak about which calls were made. -/
structure PQState where
  messages : List Message
  results : PQResults
  trace : List CallMode
  executed : List String

/-- The inner loop body of process_question (lines 670-686): only tool calls
named execute_query are acted on; the query argument is run through the
executor and the serialized rows appended as a tool message. -/
def pqExecStep (engine : Engine) (st : PQState) (c : ToolCall) : PQState :=
  if c.name = "execute_query" then
    let query := c.arguments.query.getD ""
    let query_results := execute_query engine query
    { st with
      results := { st.results with query_results := some query_results },
      messages := st.messages ++ [Message.tool c.id "execute_query" (dumpsRows query_results)],
      executed := st.executed ++ [query] }
  else st

/-- The outer loop body of process_question (lines 631-686): only
query_database calls are handled (there is no top-level execute_query branch
in this variant); the compiled SQL is recorded and sent back as a tool
message, then a second model invocation is issued with execute_query as the
forced tool choice. -/
def pqStep (oracle : Oracle) (engine : Engine) (st : PQState) (c : ToolCall) : PQState :=
  if c.name = "query_database" then
    let sql_query := build_sql_query (pqFill c.arguments)
    let st1 : PQState :=
      { st with
        results := { st.results with sql_query := some sql_query },
        messages := st.messages ++ [Message.tool c.id "query_database" (dumpsSqlObj sql_query)] }
    let follow := oracle st1.messages (CallMode.toolsForced "execute_query")
    let st2 : PQState :=
      { st1 with
        messages := st1.messages ++ [Message.assistant follow],
        trace := st1.trace ++ [CallMode.toolsForced "execute_query"] }
    follow.tool_calls.foldl (pqExecStep engine) st2
  else st

/-- The seed conversation of process_question (lines 605-608). -/
def pqInit (schema_description question : String) : List Message :=
  [ Message.system ("You are a database assistant. Based on the user's question, determine the appropriate database query to execute.\n\n" ++ schema_description),
    Message.user question ]

/-- process_question (stuff.py lines 508-695), with the model service, the
engine and the rendered schema as explicit parameters.  A first invocation
with automatic tool selection, the tool-call loop, then an unconditional
final invocation with no tools whose content becomes final_answer. -/
def process_question (oracle : Oracle) (engine : Engine) (schema_description question : String) : PQState :=
  let r1 := oracle (pqInit schema_description question) CallMode.toolsAuto
  let st0 : PQState :=
    { messages := pqInit schema_description question ++ [Message.assistant r1],
      results := { question := question },
      trace := [CallMode.toolsAuto],
      executed := [] }
  let st1 := r1.tool_calls.foldl (pqStep oracle engine) st0
  let final := oracle st1.messages CallMode.noTools
  { st1 with
    results := { st1.results with final_answer := final.content },
    trace := st1.trace ++ [CallMode.noTools] }

/-- State threaded through process_user_question, instrumented like PQState;
answer is the "answer" entry of the returned dict (line 349). -/
structure PUQState where
  messages : List Message
  query_results : Option (List ResultRow) := none
  answer : Option String := none
  trace : List CallMode
  executed : List String

/-- The inner loop body of process_user_question (lines 310-325). -/
def puqExecStep (engine : Engine) (st : PUQState) (c : ToolCall) : PUQState :=
  if c.name = "execute_query" then
    let query := c.arguments.query.getD ""
    let query_results := execute_query engine query
    { st with
      query_results := some query_results,
      messages := st.messages ++ [Message.tool c.id "execute_query" (dumpsRows query_results)],
      executed := st.executed ++ [query] }
  else st

/-- The outer loop body of process_user_question (lines 279-340): on
query_database, compile via build_query and issue the follow-up invocation
with tool_choice "auto" (line 303); on a direct execute_query, run it
immediately; other names are ignored. -/
def puqStep (oracle : Oracle) (engine : Engine) (st : PUQState) (c : ToolCall) : PUQState :=
  if c.name = "query_database" then
    let sql_query := build_query (toQueryStructure c.arguments)
    let st1 : PUQState :=
      { st with messages := st.messages ++ [Message.tool c.id "query_database" (dumpsQueryObj sql_query)] }
    let follow := oracle st1.messages CallMode.toolsAuto
    let st2 : PUQState :=
      { st1 with
        messages := st1.messages ++ [Message.assistant follow],
        trace := st1.trace ++ [CallMode.toolsAuto] }
    follow.tool_calls.foldl (puqExecStep engine) st2
  else if c.name = "execute_query" then
    let query := c.arguments.query.getD ""
    let query_results := execute_query engine query
    { st with
      query_results := some query_results,
      messages := st.messages ++ [Message.tool c.id "execute_query" (dumpsRows query_results)],
      executed := st.executed ++ [query] }
  else st

/-- The seed conversation of process_user_question (lines 258-261). -/
def puqInit (schema_description question : String) : List Message :=
  [ Message.system ("You are a helpful database assistant that helps users query a database. Here is the database schema:\n\n" ++ schema_description),
    Message.user question ]

/-- process_user_question (stuff.py lines 123-351): first invocation with
automatic tool selection, the tool-call loop, then the final invocation with
no tools whose content is the returned answer. -/
def process_user_question (oracle : Oracle) (engine : Engine) (schema_description question : String) : PUQState :=
  let r1 := oracle (puqInit schema_description question) CallMode.toolsAuto
  let st0 : PUQState :=
    { messages := puqInit schema_description question ++ [Message.assistant r1],
      trace := [CallMode.toolsAuto],
      executed := [] }
  let st1 := r1.tool_calls.foldl (puqStep oracle engine) st0
  let final := oracle st1.messages CallMode.noTools
  { st1 with
    answer := final.content,
    trace := st1.trace ++ [CallMode.noTools] }

/-- A query structure exercising every clause, for the C1 witness. -/
def qsW1 : QueryStructure :=
  { table := some "employees",
    columns := some ["name", "salary"],
    conditions := some [ { column := some "salary", operator := some ">", value := some (Value.int 1000) } ],
    joins := some [ { table := some "departments", type := some "left",
                      on_ := some { left_column := some "dept_id", right_column := some "id" } } ],
    group_by := some ["name"],
    order_by := some [ { column := some "salary", direction := some "DESC" } ],
    limit := some 5 }

/-- The empty query-structure dict: no table key. -/
def qsEmpty : QueryStructure := {}

/-- Table present, columns present but the empty list. -/
def qsC3 : QueryStructure := { table := some "t", columns := some [] }

/-- The end-to-end scenario structure, with the condition values as strings
(the type the tool schema declares for condition values). -/
def qs5str : QueryStructure :=
  { table := some "budgets", columns := some ["department", "amount"],
    conditions := some
      [ { column := some "year", operator := some "=", value := some (Value.str "2023") },
        { column := some "department", operator := some "=", value := some (Value.str "Engineering") } ] }

/-- The same scenario with the year as a number instead of a string. -/
def qs5int : QueryStructure :=
  { table := some "budgets", columns := some ["department", "amount"],
    conditions := some
      [ { column := some "year", operator := some "=", value := some (Value.int 2023) },
        { column := some "department", operator := some "=", value := some (Value.str "Engineering") } ] }

/-- The conversation state after process_question appends the first model
response (line 619). -/
def pqMsgs1 (oracle : Oracle) (s q : String) : List Message :=
  pqInit s q ++ [Message.assistant (oracle (pqInit s q) CallMode.toolsAuto)]

/-- The conversation state right before the follow-up invocation inside
pqStep, when the first response carried the single query_database call tc. -/
def pqMsgs2 (oracle : Oracle) (s q : String) (tc : ToolCall) : List Message :=
  pqMsgs1 oracle s q
    ++ [Message.tool tc.id "query_database" (dumpsSqlObj (build_sql_query (pqFill tc.arguments)))]

/-- An engine that rejects every statement, for runs whose claims do not
depend on the data. -/
def engine0 : Engine := fun _ =>
  Except.error "Catalog Error: Table with name t does not exist!"

/-- An engine accepting exactly one statement, for the executor witness. -/
def engineW : Engine := fun s =>
  if s = "SELECT department, amount FROM budgets" then
    Except.ok (["department", "amount"], [[Value.str "Engineering", Value.int 150000]])
  else
    Except.error "Parser Error: syntax error at or near BAD"

/-- A model that answers directly (no tool calls) on the first invocation
with content "There are 5 departments.", and answers any later invocation
with different content, to separate the first response from the final one. -/
def oracleC7 : Oracle := fun _ mode =>
  match mode with
  | CallMode.toolsAuto => { content := some "There are 5 departments.", tool_calls := [] }
  | _ => { content := some "Rephrased final answer.", tool_calls := [] }

/-- A query_database tool call, as the model issues it. -/
def tcW : ToolCall :=
  { id := "call_1", name := "query_database",
    arguments := { table := some "budgets", columns := some ["amount"] } }

/-- The forced execute_query call of the C8 witness run. -/
def ecW : ToolCall :=
  { id := "call_2", name := "execute_query",
    arguments := { query := some "SELECT amount FROM budgets" } }

/-- The follow-up execute_query call of the C8 counterexample run, carrying
SQL the model revised (a LIMIT the compiler output lacks). -/
def ecC8 : ToolCall :=
  { id := "call_2", name := "execute_query",
    arguments := { query := some "SELECT amount FROM budgets LIMIT 1" } }

/-- A model that calls query_database on the opening invocation (the seed
conversation has two messages) and execute_query on any later tools-auto
invocation, as the source's conversation flow produces. -/
def oracleC8 : Oracle := fun msgs mode =>
  match mode with
  | CallMode.toolsAuto =>
    if msgs.length ≤ 2 then { tool_calls := [tcW] } else { tool_calls := [ecC8] }
  | _ => { content := some "The budget was 150000." }

/-- A model for the C8 witness: query_database under automatic selection,
execute_query under the forced mode, free text with no tools. -/
def oracleW8 : Oracle := fun _ mode =>
  match mode with
  | CallMode.toolsAuto => { tool_calls := [tcW] }
  | CallMode.toolsForced _ => { tool_calls := [ecW] }
  | CallMode.noTools => { content := some "The total amount is 150000." }

/- Helper lemmas shared by the claim theorems. -/

/-- Unfolding of build_query when the table is non-empty: the output is the
six sections concatenated in source order. -/
theorem build_query_eq (q : QueryStructure) (h : q.table.getD "" ≠ "") :
    build_query q = "SELECT " ++ String.intercalate ", " (q.columns.getD ["*"]) ++ " FROM " ++ q.table.getD ""
      ++ joinsClause (q.table.getD "") q.joins ++ whereClause q.conditions
      ++ groupByClause q.group_by ++ orderByClause q.order_by ++ limitClause q.limit := by
  simp only [build_query, if_neg h]

/-- Every rendered join fragment starts with a space. -/
theorem renderJoin_starts (t : String) (j : Join) : ∃ r, renderJoin t j = " " ++ r :=
  ⟨_, rfl⟩

/-- The joins section is empty or starts with a space. -/
theorem joinsClause_shape (t : String) (oj : Option (List Join)) :
    joinsClause t oj = "" ∨ ∃ r, joinsClause t oj = " " ++ r := by
  cases oj with
  | none => exact Or.inl rfl
  | some js =>
    cases js with
    | nil => exact Or.inl rfl
    | cons j js =>
      obtain ⟨x, hx⟩ := renderJoin_starts t j
      refine Or.inr ⟨x ++ joinsList t js, ?_⟩
      rw [show joinsClause t (some (j :: js)) = renderJoin t j ++ joinsList t js from rfl, hx,
        String.append_assoc]

/-- The WHERE section is empty or starts with " WHERE ". -/
theorem whereClause_shape (oc : Option (List Condition)) :
    whereClause oc = "" ∨ ∃ r, whereClause oc = " WHERE " ++ r := by
  cases oc with
  | none => exact Or.inl rfl
  | some cs =>
    cases cs with
    | nil => exact Or.inl rfl
    | cons c cs => exact Or.inr ⟨_, rfl⟩

/-- The GROUP BY section is empty or starts with " GROUP BY ". -/
theorem groupByClause_shape (og : Option (List String)) :
    groupByClause og = "" ∨ ∃ r, groupByClause og = " GROUP BY " ++ r := by
  cases og with
  | none => exact Or.inl rfl
  | some gs =>
    cases gs with
    | nil => exact Or.inl rfl
    | cons g gs => exact Or.inr ⟨_, rfl⟩

/-- The ORDER BY section is empty or starts with " ORDER BY ". -/
theorem orderByClause_shape (oo : Option (List OrderSpec)) :
    orderByClause oo = "" ∨ ∃ r, orderByClause oo = " ORDER BY " ++ r := by
  cases oo with
  | none => exact Or.inl rfl
  | some os =>
    cases os with
    | nil => exact Or.inl rfl
    | cons o os => exact Or.inr ⟨_, rfl⟩

/-- The LIMIT section is empty or starts with " LIMIT ". -/
theorem limitClause_shape (ol : Option Int) :
    limitClause ol = "" ∨ ∃ r, limitClause ol = " LIMIT " ++ r := by
  cases ol with
  | none => exact Or.inl rfl
  | some n =>
    by_cases h : n = 0
    · exact Or.inl (by simp [limitClause, h])
    · exact Or.inr ⟨toString n, by simp [limitClause, h]⟩

/-- A string starting with " WHERE " is not empty. -/
theorem where_append_ne_empty (x : String) : " WHERE " ++ x ≠ "" := by
  intro h
  have h2 := congrArg String.length h
  simp [String.length_append] at h2
  exact absurd h2.1 (by decide)

/-- Python s.join of a one-element list is that element. -/
theorem str_intercalate_singleton (s x : String) : String.intercalate s [x] = x := by
  simp [String.intercalate, String.intercalate.go]

/- Claim theorems. -/

/-- C1: for every QueryStructure whose table is present and non-empty,
build_query returns a string beginning "SELECT <columns> FROM <table>",
followed by the join section, the WHERE section, the GROUP BY section, the
ORDER BY section and the LIMIT section, in that order; each section is
either absent (empty) or starts with its keyword.  The input is a record,
so the order of its fields cannot influence the output. -/
theorem c1_clause_order (q : QueryStructure) (h : q.table.getD "" ≠ "") :
    ∃ j w g o l : String,
      build_query q = "SELECT " ++ String.intercalate ", " (q.columns.getD ["*"])
          ++ " FROM " ++ q.table.getD "" ++ j ++ w ++ g ++ o ++ l
      ∧ (j = "" ∨ ∃ r, j = " " ++ r)
      ∧ (w = "" ∨ ∃ r, w = " WHERE " ++ r)
      ∧ (g = "" ∨ ∃ r, g = " GROUP BY " ++ r)
      ∧ (o = "" ∨ ∃ r, o = " ORDER BY " ++ r)
      ∧ (l = "" ∨ ∃ r, l = " LIMIT " ++ r) :=
  ⟨joinsClause (q.table.getD "") q.joins, whereClause q.conditions, groupByClause q.group_by,
   orderByClause q.order_by, limitClause q.limit, build_query_eq q h,
   joinsClause_shape _ _, whereClause_shape _, groupByClause_shape _, orderByClause_shape _,
   limitClause_shape _⟩

/-- C1 witness: the clause-order theorem applied to a concrete structure. -/
theorem c1_clause_order_witness :
    qsW1.table.getD "" ≠ ""
    ∧ (∃ j w g o l : String,
        build_query qsW1 = "SELECT " ++ String.intercalate ", " (qsW1.columns.getD ["*"])
            ++ " FROM " ++ qsW1.table.getD "" ++ j ++ w ++ g ++ o ++ l
        ∧ (j = "" ∨ ∃ r, j = " " ++ r)
        ∧ (w = "" ∨ ∃ r, w = " WHERE " ++ r)
        ∧ (g = "" ∨ ∃ r, g = " GROUP BY " ++ r)
        ∧ (o = "" ∨ ∃ r, o = " ORDER BY " ++ r)
        ∧ (l = "" ∨ ∃ r, l = " LIMIT " ++ r)) :=
  ⟨by decide, c1_clause_order qsW1 (by decide)⟩

/-- C2 counterexample: the claim covers both compiler variants, but
build_sql_query performs no table check: on an absent table it silently
returns "SELECT * FROM " (syntactically invalid SQL), not the diagnostic
comment the claim requires. -/
theorem c2_counterexample :
    build_sql_query qsEmpty = "SELECT * FROM "
    ∧ build_sql_query qsEmpty ≠ "-- Error: No table specified" :=
  ⟨rfl, by decide⟩

/-- C2 amended: on an absent or empty table, build_query returns the
diagnostic comment "-- Error: No table specified" (not executable SQL),
while build_sql_query performs no check and silently emits
"SELECT <columns> FROM " with nothing after FROM.  That neither string is
handed to the Executor remains an obligation on callers. -/
theorem c2_amended (q : QueryStructure) (h : q.table.getD "" = "") :
    build_query q = "-- Error: No table specified"
    ∧ ∃ rest, build_sql_query q
        = "SELECT " ++ String.intercalate ", " (q.columns.getD ["*"]) ++ " FROM " ++ rest := by
  constructor
  · simp [build_query, h]
  · refine ⟨q.table.getD "" ++ joinsClause (q.table.getD "") q.joins ++ whereClause q.conditions
      ++ groupByClause q.group_by ++ orderByClause q.order_by ++ limitClause q.limit, ?_⟩
    simp only [build_sql_query, String.append_assoc]

/-- C2 witness: the amended theorem at the empty structure. -/
theorem c2_amended_witness :
    qsEmpty.table.getD "" = ""
    ∧ (build_query qsEmpty = "-- Error: No table specified"
       ∧ ∃ rest, build_sql_query qsEmpty
           = "SELECT " ++ String.intercalate ", " (qsEmpty.columns.getD ["*"]) ++ " FROM " ++ rest) :=
  ⟨rfl, c2_amended qsEmpty rfl⟩

/-- C3 counterexample: a present-but-empty columns list is NOT replaced by
"*": dict.get("columns", ["*"]) only defaults when the key is absent, so
compile({table: "t", columns: []}) is "SELECT  FROM t", not
"SELECT * FROM t". -/
theorem c3_counterexample :
    build_query qsC3 = "SELECT  FROM t" ∧ build_query qsC3 ≠ "SELECT * FROM t" :=
  ⟨rfl, by decide⟩

/-- C3 amended: the "*" projection default applies exactly when the columns
key is absent; an explicitly empty columns list yields an empty projection
"SELECT  FROM <table>" (two spaces, invalid SQL). -/
theorem c3_amended (t : String) (h : t ≠ "") :
    build_query { table := some t, columns := none } = "SELECT * FROM " ++ t
    ∧ build_query { table := some t, columns := some [] } = "SELECT  FROM " ++ t := by
  constructor
  · rw [build_query_eq { table := some t, columns := none } (by simpa using h)]
    simp only [Option.getD_none, Option.getD_some, joinsClause, whereClause, groupByClause,
      orderByClause, limitClause, String.append_empty]
    rw [show String.intercalate ", " ["*"] = "*" from rfl,
      show ("SELECT " ++ "*" ++ " FROM " : String) = "SELECT * FROM " from rfl]
  · rw [build_query_eq { table := some t, columns := some [] } (by simpa using h)]
    simp only [Option.getD_none, Option.getD_some, joinsClause, whereClause, groupByClause,
      orderByClause, limitClause, String.append_empty]
    rw [show String.intercalate ", " ([] : List String) = "" from rfl,
      show ("SELECT " ++ "" ++ " FROM " : String) = "SELECT  FROM " from rfl]

/-- C3 witness: the amended theorem at table "t". -/
theorem c3_amended_witness :
    ("t" : String) ≠ ""
    ∧ (build_query { table := some "t", columns := none } = "SELECT * FROM " ++ "t"
       ∧ build_query { table := some "t", columns := some [] } = "SELECT  FROM " ++ "t") :=
  ⟨by decide, c3_amended "t" (by decide)⟩

/-- C4: condition rendering: a string value is wrapped in single quotes
unless its lower-cased form starts with "select", in which case it passes
through verbatim; a numeric value is rendered unquoted; and the WHERE
section of build_query, placed between the join section and the GROUP BY
section, is emitted (as " WHERE " plus the conditions joined by " AND ")
exactly when the conditions key holds a non-empty list. -/
theorem c4_condition_rendering :
    (∀ col op s : String, pyStartsWith (pyLower s) "select" = false →
        renderCondition { column := some col, operator := some op, value := some (Value.str s) }
          = col ++ " " ++ op ++ " " ++ ("'" ++ s ++ "'"))
    ∧ (∀ col op s : String, pyStartsWith (pyLower s) "select" = true →
        renderCondition { column := some col, operator := some op, value := some (Value.str s) }
          = col ++ " " ++ op ++ " " ++ s)
    ∧ (∀ col op : String, ∀ n : Int,
        renderCondition { column := some col, operator := some op, value := some (Value.int n) }
          = col ++ " " ++ op ++ " " ++ toString n)
    ∧ (∀ q : QueryStructure, q.table.getD "" ≠ "" →
        ∃ pre suf,
          build_query q = pre ++ whereClause q.conditions ++ suf
          ∧ (whereClause q.conditions = "" ↔ q.conditions = none ∨ q.conditions = some [])
          ∧ ∀ c cs, q.conditions = some (c :: cs) →
              whereClause q.conditions
                = " WHERE " ++ String.intercalate " AND " ((c :: cs).map renderCondition)) := by
  refine ⟨?_, ?_, ?_, ?_⟩
  · intro col op s hs
    simp [renderCondition, formattedValue, hs]
  · intro col op s hs
    simp [renderCondition, formattedValue, hs]
  · intro col op n
    rfl
  · intro q h
    refine ⟨"SELECT " ++ String.intercalate ", " (q.columns.getD ["*"]) ++ " FROM " ++ q.table.getD ""
        ++ joinsClause (q.table.getD "") q.joins,
      groupByClause q.group_by ++ orderByClause q.order_by ++ limitClause q.limit, ?_, ?_, ?_⟩
    · rw [build_query_eq q h]
      simp only [String.append_assoc]
    · constructor
      · intro he
        cases hc : q.conditions with
        | none => exact Or.inl rfl
        | some cs =>
          cases cs with
          | nil => exact Or.inr rfl
          | cons c cs =>
            rw [hc] at he
            exact absurd he (where_append_ne_empty _)
      · intro he
        rcases he with he | he <;> rw [he] <;> rfl
    · intro c cs hc
      rw [hc]
      rfl

/-- C4 witness: the quoting rule applied to the value "Engineering". -/
theorem c4_condition_rendering_witness :
    pyStartsWith (pyLower "Engineering") "select" = false
    ∧ renderCondition
        { column := some "department", operator := some "=",
          value := some (Value.str "Engineering") }
        = "department" ++ " " ++ "=" ++ " " ++ ("'" ++ "Engineering" ++ "'") :=
  ⟨by decide, c4_condition_rendering.1 "department" "=" "Engineering" (by decide)⟩

/-- C5 counterexample: with value the string "2023" (as written in the
scenario), build_query quotes it, so the output is not the claimed string
with the unquoted year. -/
theorem c5_counterexample :
    build_query qs5str
      ≠ "SELECT department, amount FROM budgets WHERE year = 2023 AND department = 'Engineering'" := by
  decide

/-- C5 amended: with the condition value the string "2023" the compiled
query quotes it ("year = '2023'"); the claimed output with the unquoted
year arises exactly when the value is the number 2023. -/
theorem c5_amended :
    build_query qs5str
      = "SELECT department, amount FROM budgets WHERE year = '2023' AND department = 'Engineering'"
    ∧ build_query qs5int
      = "SELECT department, amount FROM budgets WHERE year = 2023 AND department = 'Engineering'" :=
  ⟨rfl, rfl⟩

/-- C9: on every query structure whose table is present and non-empty, the
two compiler variants agree: build_query and build_sql_query return the
same SQL string. -/
theorem c9_variants_agree (q : QueryStructure) (h : q.table.getD "" ≠ "") :
    build_query q = build_sql_query q := by
  rw [build_query_eq q h]
  rfl

/-- C9 witness: the agreement at a concrete structure. -/
theorem c9_variants_agree_witness :
    qsW1.table.getD "" ≠ "" ∧ build_query qsW1 = build_sql_query qsW1 :=
  ⟨by decide, c9_variants_agree qsW1 (by decide)⟩

/-- C10: a condition whose operator or value key is absent still compiles:
the operator defaults to "=" and the value to the empty string, rendered as
'' (two single quotes); in particular build_query on a condition carrying
only a column yields "... WHERE <column> = ''". -/
theorem c10_condition_defaults :
    (∀ col : String, ∀ v : Value,
        renderCondition { column := some col, operator := none, value := some v }
          = col ++ " " ++ "=" ++ " " ++ formattedValue v)
    ∧ (∀ col op : String,
        renderCondition { column := some col, operator := some op, value := none }
          = col ++ " " ++ op ++ " " ++ "''")
    ∧ (∀ t c : String, t ≠ "" →
        build_query { table := some t, conditions := some [ { column := some c } ] }
          = "SELECT * FROM " ++ t ++ " WHERE " ++ c ++ " = ''") := by
  refine ⟨fun col v => rfl, fun col op => rfl, ?_⟩
  intro t c h
  have hrc : renderCondition { column := some c } = c ++ " = ''" := by
    rw [show renderCondition { column := some c } = c ++ " " ++ "=" ++ " " ++ "''" from rfl]
    simp only [String.append_assoc]
    rfl
  rw [build_query_eq { table := some t, conditions := some [ { column := some c } ] }
    (by simpa using h)]
  simp only [Option.getD_none, Option.getD_some, joinsClause, whereClause, groupByClause,
    orderByClause, limitClause, String.append_empty, List.map]
  rw [str_intercalate_singleton, str_intercalate_singleton, hrc,
    show ("SELECT " ++ "*" ++ " FROM " : String) = "SELECT * FROM " from rfl]
  simp only [String.append_assoc]

/-- C10 witness: the defaults at a concrete table and column. -/
theorem c10_condition_defaults_witness :
    ("budgets" : String) ≠ ""
    ∧ build_query { table := some "budgets", conditions := some [ { column := some "year" } ] }
        = "SELECT * FROM " ++ "budgets" ++ " WHERE " ++ "year" ++ " = ''" :=
  ⟨by decide, c10_condition_defaults.2.2 "budgets" "year" (by decide)⟩

/-- C6: the executor never raises: for every engine and SQL string, an
engine-level failure yields exactly the one-row sequence carrying the
engine's message under the "error" key, and a success yields the fetched
rows as column-name/value pairs in column order. -/
theorem c6_executor_shape (engine : Engine) (q : String) :
    (∀ e, engine q = Except.error e →
        execute_query engine q = [[("error", Value.str e)]]
        ∧ (execute_query engine q).length = 1)
    ∧ (∀ cols rows, engine q = Except.ok (cols, rows) →
        execute_query engine q = rows.map (fun row => cols.zip row)) := by
  constructor
  · intro e he
    constructor
    · simp [execute_query, he]
    · simp [execute_query, he]
  · intro cols rows hok
    simp [execute_query, hok]

/-- C6 witness: the shape theorem at a concrete engine, on a failing and on
a succeeding statement. -/
theorem c6_executor_shape_witness :
    execute_query engineW "BAD" = [[("error", Value.str "Parser Error: syntax error at or near BAD")]]
    ∧ execute_query engineW "SELECT department, amount FROM budgets"
        = [[("department", Value.str "Engineering"), ("amount", Value.int 150000)]] :=
  ⟨((c6_executor_shape engineW "BAD").1 _ rfl).1,
   ((c6_executor_shape engineW "SELECT department, amount FROM budgets").2
      ["department", "amount"] [[Value.str "Engineering", Value.int 150000]] rfl).trans rfl⟩

/-- C7 counterexample: with a first model response that carries no tool
calls and content "There are 5 departments.", process_question still issues
a second, no-tools model invocation and returns that second response's
content as final_answer, not the first response's content. -/
theorem c7_counterexample :
    (oracleC7 (pqInit "SCHEMA" "How many departments?") CallMode.toolsAuto).tool_calls = []
    ∧ (oracleC7 (pqInit "SCHEMA" "How many departments?") CallMode.toolsAuto).content
        = some "There are 5 departments."
    ∧ (process_question oracleC7 engine0 "SCHEMA" "How many departments?").results.final_answer
        = some "Rephrased final answer."
    ∧ (some "Rephrased final answer." : Option String) ≠ some "There are 5 departments." :=
  ⟨rfl, rfl, rfl, by decide⟩

/-- C7 amended: when the first model response has no tool calls, the
orchestrator executes no query and returns sql_query = none and
query_results = none, but final_answer is the content of a second, no-tools
model invocation issued on the conversation with the first response
appended — not the first response's own content. -/
theorem c7_amended (oracle : Oracle) (engine : Engine) (s q : String)
    (h : (oracle (pqInit s q) CallMode.toolsAuto).tool_calls = []) :
    (process_question oracle engine s q).results.sql_query = none
    ∧ (process_question oracle engine s q).results.query_results = none
    ∧ (process_question oracle engine s q).executed = []
    ∧ (process_question oracle engine s q).trace = [CallMode.toolsAuto, CallMode.noTools]
    ∧ (process_question oracle engine s q).results.final_answer
        = (oracle (pqMsgs1 oracle s q) CallMode.noTools).content := by
  simp only [process_question, pqMsgs1, h, List.foldl_nil]
  exact ⟨trivial, trivial, trivial, rfl, trivial⟩

/-- C7 witness: the amended theorem on the no-tool-call run. -/
theorem c7_amended_witness :
    (oracleC7 (pqInit "S" "Q") CallMode.toolsAuto).tool_calls = []
    ∧ ((process_question oracleC7 engine0 "S" "Q").results.sql_query = none
       ∧ (process_question oracleC7 engine0 "S" "Q").results.query_results = none
       ∧ (process_question oracleC7 engine0 "S" "Q").executed = []
       ∧ (process_question oracleC7 engine0 "S" "Q").trace = [CallMode.toolsAuto, CallMode.noTools]
       ∧ (process_question oracleC7 engine0 "S" "Q").results.final_answer
           = (oracleC7 (pqMsgs1 oracleC7 "S" "Q") CallMode.noTools).content) :=
  ⟨rfl, c7_amended oracleC7 engine0 "S" "Q" rfl⟩

/-- C8 counterexample: the claim covers both orchestrators, but in
process_user_question the follow-up model invocation after a query_database
call is issued with automatic tool selection (tool_choice "auto", line 303),
not with execute_query forced. -/
theorem c8_counterexample :
    ((oracleC8 (puqInit "SCHEMA" "What was the budget?") CallMode.toolsAuto).tool_calls.map
        (fun c => c.name)) = ["query_database"]
    ∧ (process_user_question oracleC8 engine0 "SCHEMA" "What was the budget?").trace
        = [CallMode.toolsAuto, CallMode.toolsAuto, CallMode.noTools]
    ∧ (process_user_question oracleC8 engine0 "SCHEMA" "What was the budget?").trace
        ≠ [CallMode.toolsAuto, CallMode.toolsForced "execute_query", CallMode.noTools]
    ∧ (process_user_question oracleC8 engine0 "SCHEMA" "What was the budget?").executed
        = ["SELECT amount FROM budgets LIMIT 1"] :=
  ⟨rfl, rfl, by decide, rfl⟩

/-- C8 amended: in process_question the claim holds: after a first response
whose single tool call is query_database, the second model invocation is
issued with execute_query as the forced tool choice, and the SQL actually
executed is the query argument of that forced call (the compiled SQL is
only recorded and sent back as context); in process_user_question the
follow-up invocation instead uses automatic tool selection, though there
too the executed SQL is taken from the follow-up call's query argument. -/
theorem c8_amended (oracle : Oracle) (engine : Engine) (s q : String) (tc ec : ToolCall)
    (h1 : (oracle (pqInit s q) CallMode.toolsAuto).tool_calls = [tc])
    (h2 : tc.name = "query_database")
    (h3 : (oracle (pqMsgs2 oracle s q tc) (CallMode.toolsForced "execute_query")).tool_calls = [ec])
    (h4 : ec.name = "execute_query") :
    (process_question oracle engine s q).trace
      = [CallMode.toolsAuto, CallMode.toolsForced "execute_query", CallMode.noTools]
    ∧ (process_question oracle engine s q).executed = [ec.arguments.query.getD ""]
    ∧ (process_question oracle engine s q).results.query_results
        = some (execute_query engine (ec.arguments.query.getD ""))
    ∧ (process_question oracle engine s q).results.sql_query
        = some (build_sql_query (pqFill tc.arguments)) := by
  have h3' := h3
  simp only [pqMsgs2, pqMsgs1] at h3'
  simp only [process_question, h1, List.foldl_cons, List.foldl_nil, pqStep]
  rw [if_pos h2]
  simp only [h3', List.foldl_cons, List.foldl_nil, pqExecStep]
  rw [if_pos h4]
  exact ⟨rfl, rfl, rfl, rfl⟩

/-- C8 witness: the amended theorem on a concrete forced-execution run. -/
theorem c8_amended_witness :
    (process_question oracleW8 engine0 "S" "Q").trace
      = [CallMode.toolsAuto, CallMode.toolsForced "execute_query", CallMode.noTools]
    ∧ (process_question oracleW8 engine0 "S" "Q").executed = [ecW.arguments.query.getD ""]
    ∧ (process_question oracleW8 engine0 "S" "Q").results.query_results
        = some (execute_query engine0 (ecW.arguments.query.getD ""))
    ∧ (process_question oracleW8 engine0 "S" "Q").results.sql_query
        = some (build_sql_query (pqFill tcW.arguments)) :=
  c8_amended oracleW8 engine0 "S" "Q" tcW ecW rfl rfl rfl rfl

end DBAgent
